import Mathlib

/-!
Verification of the `point` library: a bounded two-dimensional coordinate
type (`Point`) together with its builder (`PointBuilder`), bounds-checked
arithmetic, cardinal-direction stepping and value-type operations.

The embedding follows `src/lib.rs`. The Rust `usize` type is modelled as
`Nat` together with an explicit representable range `[0, USIZE_SIZE)`;
`usize::checked_add` / `usize::checked_sub` become `Option`-valued
functions, and operations that panic in Rust (the unchecked `+`/`-`
operators on overflow or underflow, `check_neighbors` with no in-bounds
neighbor) are modelled as `Option`-valued functions where `none` stands
for the fatal, program-terminating failure.
-/

/-- The number of values of `usize` (64-bit). -/
def USIZE_SIZE : Nat := 2 ^ 64

/-- Rust `usize::checked_add`: `some (a + b)` unless the sum overflows. -/
def usizeCheckedAdd (a b : Nat) : Option Nat :=
  if a + b < USIZE_SIZE then some (a + b) else none

/-- Rust `usize::checked_sub`: `some (a - b)` unless the difference would go below zero. -/
def usizeCheckedSub (a b : Nat) : Option Nat :=
  if b ≤ a then some (a - b) else none

/-- Rust `Option::zip`: `some (x, y)` when both options are `some`, else `none`. -/
def ozip {α β : Type} : Option α → Option β → Option (α × β)
  | some x, some y => some (x, y)
  | _, _ => none

/-- Rust `Option::filter`: keeps `some x` only when the predicate holds at `x`. -/
def ofilter {α : Type} (pred : α → Bool) : Option α → Option α
  | some x => if pred x then some x else none
  | none => none

/-- `Point(x, y, x_bound, y_bound)`: coordinates plus exclusive upper bounds,
from `pub struct Point(usize, usize, usize, usize)`. The Rust tuple fields
`.0 .1 .2 .3` are named `x y x_bound y_bound` here. -/
structure Point where
  x : Nat
  y : Nat
  x_bound : Nat
  y_bound : Nat
deriving DecidableEq

/-- `PointBuilder(usize, usize)`: the two stored bounds. -/
structure PointBuilder where
  fst : Nat
  snd : Nat
deriving DecidableEq

/-- `PointBuilder::new(x, y)`. -/
def PointBuilder.new (x y : Nat) : PointBuilder :=
  PointBuilder.mk x y

/-- `PointBuilder::build(&self, x, y) -> Point`: the given coordinates with the
builder's stored bounds; no bounds check of any kind. -/
def PointBuilder.build (b : PointBuilder) (x y : Nat) : Point :=
  Point.mk x y b.fst b.snd

/-- `Point::checked_add`: overflow-checked addition on each axis, zipped, the
candidate carrying `self`'s bounds, then filtered by `x < self.x_bound && y < self.y_bound`. -/
def Point.checked_add (p other : Point) : Option Point :=
  ofilter
    (fun result => decide (result.x < p.x_bound) && decide (result.y < p.y_bound))
    ((ozip (usizeCheckedAdd p.x other.x) (usizeCheckedAdd p.y other.y)).map
      (fun result => Point.mk result.1 result.2 p.x_bound p.y_bound))

/-- `Point::checked_sub`: underflow-checked subtraction on each axis, zipped,
the result carrying `self`'s bounds; no upper-bound check. -/
def Point.checked_sub (p other : Point) : Option Point :=
  (ozip (usizeCheckedSub p.x other.x) (usizeCheckedSub p.y other.y)).map
    (fun result => Point.mk result.1 result.2 p.x_bound p.y_bound)

/-- `Point::get`: the coordinate pair. -/
def Point.get (p : Point) : Nat × Nat :=
  (p.x, p.y)

/-- `Point::north`: `checked_add` with `Point(0, 1, 0, 0)`. -/
def Point.north (p : Point) : Option Point :=
  p.checked_add (Point.mk 0 1 0 0)

/-- `Point::south`: `checked_sub` with `Point(0, 1, 0, 0)`. -/
def Point.south (p : Point) : Option Point :=
  p.checked_sub (Point.mk 0 1 0 0)

/-- `Point::east`: `checked_add` with `Point(1, 0, 0, 0)`. -/
def Point.east (p : Point) : Option Point :=
  p.checked_add (Point.mk 1 0 0 0)

/-- `Point::west`: `checked_sub` with `Point(1, 0, 0, 0)`. -/
def Point.west (p : Point) : Option Point :=
  p.checked_sub (Point.mk 1 0 0 0)

/-- `Point::check_neighbors`: pushes the `some` results of north, south, east,
west in that order; `none` models the panic taken when the vector is empty. -/
def Point.check_neighbors (p : Point) : Option (List Point) :=
  let rtn : List Point := []
  let rtn := match p.north with
    | some result => rtn ++ [result]
    | none => rtn
  let rtn := match p.south with
    | some result => rtn ++ [result]
    | none => rtn
  let rtn := match p.east with
    | some result => rtn ++ [result]
    | none => rtn
  let rtn := match p.west with
    | some result => rtn ++ [result]
    | none => rtn
  if rtn.isEmpty then none else some rtn

/-- The unchecked `+` operator (`impl Add for Point`): plain unsigned addition,
the result carrying the left operand's bounds; `none` models the fatal
arithmetic fault on overflow. -/
def Point.add (p other : Point) : Option Point :=
  (usizeCheckedAdd p.x other.x).bind fun x =>
    (usizeCheckedAdd p.y other.y).map fun y =>
      Point.mk x y p.x_bound p.y_bound

/-- The unchecked `-` operator (`impl Sub for Point`): plain unsigned
subtraction, the result carrying the left operand's bounds; `none` models the
fatal arithmetic fault on underflow. -/
def Point.sub (p other : Point) : Option Point :=
  (usizeCheckedSub p.x other.x).bind fun x =>
    (usizeCheckedSub p.y other.y).map fun y =>
      Point.mk x y p.x_bound p.y_bound

/-- `impl fmt::Display for Point`: `write!(f, "{}, {}", self.0, self.1)`. -/
def Point.display (p : Point) : String :=
  toString p.x ++ ", " ++ toString p.y

/-- `impl Default for Point`: `Point(0, 0, 0, 0)`. -/
def Point.default : Point :=
  Point.mk 0 0 0 0

/-- A `Point` all of whose fields fit in `usize`, i.e. one representable in Rust. -/
def Point.ReprOk (p : Point) : Prop :=
  p.x < USIZE_SIZE ∧ p.y < USIZE_SIZE ∧ p.x_bound < USIZE_SIZE ∧ p.y_bound < USIZE_SIZE

/-! ## Shared characterization lemmas -/

/-- Closed form of `checked_add`. -/
lemma checked_add_eq (p q : Point) :
    p.checked_add q =
      if p.x + q.x < USIZE_SIZE ∧ p.y + q.y < USIZE_SIZE ∧
          p.x + q.x < p.x_bound ∧ p.y + q.y < p.y_bound
      then some (Point.mk (p.x + q.x) (p.y + q.y) p.x_bound p.y_bound)
      else none := by
  by_cases hx : p.x + q.x < USIZE_SIZE <;>
    by_cases hy : p.y + q.y < USIZE_SIZE <;>
      by_cases hbx : p.x + q.x < p.x_bound <;>
        by_cases hby : p.y + q.y < p.y_bound <;>
          simp [Point.checked_add, usizeCheckedAdd, ozip, ofilter, hx, hy, hbx, hby]

/-- Closed form of `checked_sub`. -/
lemma checked_sub_eq (p q : Point) :
    p.checked_sub q =
      if q.x ≤ p.x ∧ q.y ≤ p.y
      then some (Point.mk (p.x - q.x) (p.y - q.y) p.x_bound p.y_bound)
      else none := by
  by_cases hx : q.x ≤ p.x <;>
    by_cases hy : q.y ≤ p.y <;>
      simp [Point.checked_sub, usizeCheckedSub, ozip, hx, hy]

/-- A successful `checked_add` pins down the result and its bound conditions. -/
lemma checked_add_some_eq (p q r : Point) (h : p.checked_add q = some r) :
    r = Point.mk (p.x + q.x) (p.y + q.y) p.x_bound p.y_bound ∧
      p.x + q.x < p.x_bound ∧ p.y + q.y < p.y_bound := by
  rw [checked_add_eq] at h
  split at h
  · rename_i hcond
    exact ⟨(Option.some_injective _ h).symm, hcond.2.2.1, hcond.2.2.2⟩
  · exact absurd h (by simp)

/-- A successful `checked_sub` pins down the result and its underflow conditions. -/
lemma checked_sub_some_eq (p q r : Point) (h : p.checked_sub q = some r) :
    r = Point.mk (p.x - q.x) (p.y - q.y) p.x_bound p.y_bound ∧
      q.x ≤ p.x ∧ q.y ≤ p.y := by
  rw [checked_sub_eq] at h
  split at h
  · rename_i hcond
    exact ⟨(Option.some_injective _ h).symm, hcond.1, hcond.2⟩
  · exact absurd h (by simp)

/-! ## Claim theorems -/

/-- C1: `checked_add p q` is `some` exactly when neither axis addition
overflows and the sums pass `x < p.x_bound && y < p.y_bound`; then the result
is `(p.x + q.x, p.y + q.y)` carrying `p`'s bounds, else `none`; and replacing
`q`'s bounds by any values leaves the result unchanged. -/
theorem checked_add_spec (p q : Point) :
    (p.checked_add q =
      if p.x + q.x < USIZE_SIZE ∧ p.y + q.y < USIZE_SIZE ∧
          p.x + q.x < p.x_bound ∧ p.y + q.y < p.y_bound
      then some (Point.mk (p.x + q.x) (p.y + q.y) p.x_bound p.y_bound)
      else none) ∧
    (∀ b1 b2 : Nat, p.checked_add (Point.mk q.x q.y b1 b2) = p.checked_add q) :=
  ⟨checked_add_eq p q, fun _ _ => rfl⟩

/-- C2: `checked_sub p q` is `none` exactly when `p.x < q.x` or `p.y < q.y`,
and otherwise `some (p.x - q.x, p.y - q.y)` carrying `p`'s bounds, with no
upper-bound check on the result. -/
theorem checked_sub_spec (p q : Point) :
    (p.checked_sub q = none ↔ p.x < q.x ∨ p.y < q.y) ∧
    (p.checked_sub q =
      if q.x ≤ p.x ∧ q.y ≤ p.y
      then some (Point.mk (p.x - q.x) (p.y - q.y) p.x_bound p.y_bound)
      else none) := by
  refine ⟨?_, checked_sub_eq p q⟩
  rw [checked_sub_eq]
  split <;> rename_i hcond <;> simp <;> omega

/-- C3: `check_neighbors` returns exactly the `some` directional results in
the order north, south, east, west, and is the fatal failure (modelled as
`none`) iff all four directions are `none`; in particular the only cell of a
1×1 grid has no neighbors and hits the fatal failure. -/
theorem check_neighbors_spec (p : Point) :
    (p.check_neighbors =
      if (p.north.toList ++ p.south.toList ++ p.east.toList ++ p.west.toList).isEmpty
      then none
      else some (p.north.toList ++ p.south.toList ++ p.east.toList ++ p.west.toList)) ∧
    (p.check_neighbors = none ↔
      p.north = none ∧ p.south = none ∧ p.east = none ∧ p.west = none) ∧
    ((PointBuilder.new 1 1).build 0 0).check_neighbors = none := by
  refine ⟨?_, ?_, by decide⟩ <;>
    cases hn : p.north <;> cases hs : p.south <;> cases he : p.east <;> cases hw : p.west <;>
      simp [Point.check_neighbors, hn, hs, he, hw]

/-- C4: starting from an in-bounds point `p`, every `some` result of
`checked_add`, `checked_sub`, `north`, `south`, `east` or `west` is again
in bounds with respect to its own carried bounds, which equal `p`'s. -/
theorem in_bounds_preserved (p q r : Point)
    (hx : p.x < p.x_bound) (hy : p.y < p.y_bound)
    (h : p.checked_add q = some r ∨ p.checked_sub q = some r ∨
         p.north = some r ∨ p.south = some r ∨
         p.east = some r ∨ p.west = some r) :
    r.x < r.x_bound ∧ r.y < r.y_bound ∧ r.x_bound = p.x_bound ∧ r.y_bound = p.y_bound := by
  have addCase : ∀ o : Point, p.checked_add o = some r →
      r.x < r.x_bound ∧ r.y < r.y_bound ∧ r.x_bound = p.x_bound ∧ r.y_bound = p.y_bound := by
    intro o ho
    obtain ⟨hr, h1, h2⟩ := checked_add_some_eq p o r ho
    subst hr
    exact ⟨h1, h2, rfl, rfl⟩
  have subCase : ∀ o : Point, p.checked_sub o = some r →
      r.x < r.x_bound ∧ r.y < r.y_bound ∧ r.x_bound = p.x_bound ∧ r.y_bound = p.y_bound := by
    intro o ho
    obtain ⟨hr, h1, h2⟩ := checked_sub_some_eq p o r ho
    subst hr
    refine ⟨?_, ?_, rfl, rfl⟩ <;> simp <;> omega
  rcases h with h | h | h | h | h | h
  · exact addCase q h
  · exact subCase q h
  · exact addCase (Point.mk 0 1 0 0) h
  · exact subCase (Point.mk 0 1 0 0) h
  · exact addCase (Point.mk 1 0 0 0) h
  · exact subCase (Point.mk 1 0 0 0) h

/-- Witness for C4 at `p = (1,1)` with bounds `(3,3)`, `q = (1,1)`,
`checked_add` yielding `(2,2)`. -/
theorem in_bounds_preserved_witness :
    (Point.mk 1 1 3 3).checked_add (Point.mk 1 1 0 0) = some (Point.mk 2 2 3 3) ∧
    ((Point.mk 2 2 3 3).x < (Point.mk 2 2 3 3).x_bound ∧
      (Point.mk 2 2 3 3).y < (Point.mk 2 2 3 3).y_bound ∧
      (Point.mk 2 2 3 3).x_bound = (Point.mk 1 1 3 3).x_bound ∧
      (Point.mk 2 2 3 3).y_bound = (Point.mk 1 1 3 3).y_bound) :=
  ⟨by decide,
    in_bounds_preserved (Point.mk 1 1 3 3) (Point.mk 1 1 0 0) (Point.mk 2 2 3 3)
      (by decide) (by decide) (Or.inl (by decide))⟩

/-- C5: for an in-bounds point, a successful north step followed by a
successful south step returns to the original point, and likewise east
then west. -/
theorem step_roundtrip (p : Point) (_hx : p.x < p.x_bound) (_hy : p.y < p.y_bound) :
    (∀ q r : Point, p.north = some q → q.south = some r → r = p) ∧
    (∀ q r : Point, p.east = some q → q.west = some r → r = p) := by
  constructor
  · intro q r hq hr
    obtain ⟨hqe, -, -⟩ := checked_add_some_eq p (Point.mk 0 1 0 0) q hq
    obtain ⟨hre, -, -⟩ := checked_sub_some_eq q (Point.mk 0 1 0 0) r hr
    subst hqe
    subst hre
    cases p
    simp
  · intro q r hq hr
    obtain ⟨hqe, -, -⟩ := checked_add_some_eq p (Point.mk 1 0 0 0) q hq
    obtain ⟨hre, -, -⟩ := checked_sub_some_eq q (Point.mk 1 0 0 0) r hr
    subst hqe
    subst hre
    cases p
    simp

/-- Witness for C5 at `p = (1,1)` with bounds `(3,3)`: north gives `(1,2)`,
south from there gives back `(1,1)`. -/
theorem step_roundtrip_witness :
    (Point.mk 1 1 3 3).north = some (Point.mk 1 2 3 3) ∧
    (Point.mk 1 2 3 3).south = some (Point.mk 1 1 3 3) ∧
    Point.mk 1 1 3 3 = Point.mk 1 1 3 3 :=
  ⟨by decide, by decide,
    (step_roundtrip (Point.mk 1 1 3 3) (by decide) (by decide)).1
      (Point.mk 1 2 3 3) (Point.mk 1 1 3 3) (by decide) (by decide)⟩

/-- C6: for all bounds and all coordinates, `Builder::new(bx, bz).build(x, y).get()`
is `(x, y)`, and `build` is total with no bounds check: it always produces the
point with the given coordinates and the stored bounds. -/
theorem builder_build_get (bx bz x y : Nat) :
    ((PointBuilder.new bx bz).build x y).get = (x, y) ∧
    (PointBuilder.new bx bz).build x y = Point.mk x y bx bz :=
  ⟨rfl, rfl⟩

/-- C7: equality of points is structural over all four fields; in particular
points with equal coordinates but different bounds are unequal. -/
theorem point_eq_iff (p q : Point) :
    (p = q ↔ p.x = q.x ∧ p.y = q.y ∧ p.x_bound = q.x_bound ∧ p.y_bound = q.y_bound) ∧
    (PointBuilder.new 5 5).build 1 1 ≠ (PointBuilder.new 9 9).build 1 1 := by
  refine ⟨⟨fun h => by subst h; exact ⟨rfl, rfl, rfl, rfl⟩, ?_⟩, by decide⟩
  rintro ⟨h1, h2, h3, h4⟩
  cases p
  cases q
  simp_all

/-- C8: `check_neighbors` on the point `(1,1)` with bounds `(3,3)` returns the
four neighbors `[(1,2), (1,0), (2,1), (0,1)]`, each with bounds `(3,3)`, in
the order north, south, east, west. -/
theorem check_neighbors_concrete :
    ((PointBuilder.new 3 3).build 1 1).check_neighbors =
      some [Point.mk 1 2 3 3, Point.mk 1 0 3 3, Point.mk 2 1 3 3, Point.mk 0 1 3 3] := by
  decide

/-- C9: the unchecked `+` operator yields `(p.x + q.x, p.y + q.y)` with `p`'s
bounds whenever no axis overflows and faults fatally (modelled as `none`)
otherwise; the unchecked `-` operator yields `(p.x - q.x, p.y - q.y)` with
`p`'s bounds whenever no axis underflows and faults fatally otherwise —
neither performs any bounds check — and in particular
`Point::default() - Point(1, 0, 0, 0)` faults. -/
theorem unchecked_add_sub_spec (p q : Point) :
    (p.add q =
      if p.x + q.x < USIZE_SIZE ∧ p.y + q.y < USIZE_SIZE
      then some (Point.mk (p.x + q.x) (p.y + q.y) p.x_bound p.y_bound)
      else none) ∧
    (p.sub q =
      if q.x ≤ p.x ∧ q.y ≤ p.y
      then some (Point.mk (p.x - q.x) (p.y - q.y) p.x_bound p.y_bound)
      else none) ∧
    Point.default.sub (Point.mk 1 0 0 0) = none := by
  refine ⟨?_, ?_, by decide⟩
  · by_cases hx : p.x + q.x < USIZE_SIZE <;>
      by_cases hy : p.y + q.y < USIZE_SIZE <;>
        simp [Point.add, usizeCheckedAdd, hx, hy]
  · by_cases hx : q.x ≤ p.x <;>
      by_cases hy : q.y ≤ p.y <;>
        simp [Point.sub, usizeCheckedSub, hx, hy]

/-- C10: `Point::default()` is `(0, 0)` with bounds `(0, 0)` and fails the
in-bounds invariant; `Display` renders exactly `"{x}, {y}"`, independent of
the bounds, e.g. `(12, 34)` with any bounds renders as `"12, 34"`. -/
theorem default_display_spec :
    Point.default = Point.mk 0 0 0 0 ∧
    ¬(Point.default.x < Point.default.x_bound ∧ Point.default.y < Point.default.y_bound) ∧
    (∀ x y b1 b2 b3 b4 : Nat,
      (Point.mk x y b1 b2).display = toString x ++ ", " ++ toString y ∧
      (Point.mk x y b1 b2).display = (Point.mk x y b3 b4).display) ∧
    (Point.mk 12 34 5 6).display = "12, 34" :=
  ⟨rfl, by decide, fun _ _ _ _ _ _ => ⟨rfl, rfl⟩, rfl⟩
